import Mathlib

/-!
Verification of the tutedude video-proctoring engine.

This file gives a shallow embedding of the scoring / violation-detection
core of the repository and proves the specification claims about it.

The embedding covers:
* the local scoring ledger and remote-score reconciliation of
  `frontend/src/components/CandidateView.tsx` (`onEvent`, `fetchSessionInfo`);
* the per-kind event throttle and `triggerEvent` of
  `frontend/src/hooks/useComputerVision.ts`;
* the temporal state machines of `onResults` in the same hook
  (no-face, multiple-faces, looking-away, eyes-closed);
* the object-detection pipeline (`useObjectDetection`:
  `performDetection`, `processSuspiciousObjects`, `getSeverity`);
* the backend session store of `backend/server.js`
  (event logging, status, score update endpoints).

Timestamps are JavaScript `Date.now()` epoch milliseconds, modelled as `Nat`.
JavaScript subtraction `a - b` compared against a positive bound behaves the
same as truncated `Nat` subtraction in every comparison the code performs
(a negative JS difference and a truncated-to-`0` Nat difference both fail
tests of the form `x ≥ interval` and `x > threshold`).  Scores are JS
numbers used integrally; they are modelled as `Int`.  Object-detection
confidences are JS floats in `[0,1]` only ever compared against `0.6`;
they are modelled as `Rat` (written `mkRat`).
-/

namespace Tutedude

/-- Violation severity, the TypeScript union `"low" | "medium" | "high"`. -/
inductive Severity
  | low
  | medium
  | high
  deriving DecidableEq, Repr

/-- A violation event as produced by the detection hooks
(`DetectionEvent` in `useComputerVision.ts` / `useObjectDetection.ts`). -/
structure DetectionEvent where
  type : String
  description : String
  severity : Severity
  deriving DecidableEq, Repr

/-- Deduction table from `CandidateView.tsx` `onEvent`:
`const deductionAmounts = { low: 2, medium: 5, high: 10 }`. -/
def deductionAmounts : Severity → Int
  | .low => 2
  | .medium => 5
  | .high => 10

/-- Local score update from `CandidateView.tsx` `onEvent`:
`const newScore = Math.max(0, prev - deduction)`. -/
def applyDeduction (severity : Severity) (localScore : Int) : Int :=
  max 0 (localScore - deductionAmounts severity)

/-- Remote-score reconciliation from `CandidateView.tsx` `fetchSessionInfo`:
`if (currentScore === 100 || data.integrityScore < currentScore)
   setCurrentScore(data.integrityScore)`. -/
def syncScore (currentScore integrityScore : Int) : Int :=
  if currentScore = 100 ∨ integrityScore < currentScore then integrityScore
  else currentScore

/-- One ledger-mutating input: a qualifying violation (deduction) or a
polled remote status report (reconciliation). -/
inductive ScoreStep
  | deduct (severity : Severity)
  | remoteSync (integrityScore : Int)
  deriving DecidableEq, Repr

/-- Effect of one `ScoreStep` on the local score. -/
def stepScore (s : Int) : ScoreStep → Int
  | .deduct severity => applyDeduction severity s
  | .remoteSync r => syncScore s r

/-- Local score after a whole sequence of deductions and remote syncs. -/
def runScore (s : Int) (steps : List ScoreStep) : Int :=
  steps.foldl stepScore s

/-- Actions performed by `triggerEvent` after the throttle admits an event,
in program order: the synchronous local handler call (`onEvent(event)`),
then the asynchronous POST of the event to the backend. -/
inductive Action
  | localEmit (e : DetectionEvent)
  | networkPost (e : DetectionEvent)
  deriving DecidableEq, Repr

/-- Throttle admission test shared by both pipelines.  The source stores
`lastEventTimeRef.current[key] || 0` and returns early when
`currentTime - lastEventTime < interval`; firing is allowed exactly when
that early return does not happen. -/
def throttleAllows (minRefireInterval : Nat) (lastEventTime : String → Nat)
    (key : String) (now : Nat) : Bool :=
  !decide (now - lastEventTime key < minRefireInterval)

/-- Throttle bookkeeping on an allowed firing:
`lastEventTimeRef.current[key] = currentTime`. -/
def throttleMark (lastEventTime : String → Nat) (key : String) (now : Nat) :
    String → Nat :=
  fun k => if k = key then now else lastEventTime k

/-- A sequence of firing attempts `(key, time)` pushed through the throttle;
returns the attempts that were allowed to fire. -/
def throttleRun (interval : Nat) (lastEventTime : String → Nat) :
    List (String × Nat) → List (String × Nat)
  | [] => []
  | (key, t) :: rest =>
    if throttleAllows interval lastEventTime key t then
      (key, t) :: throttleRun interval (throttleMark lastEventTime key t) rest
    else
      throttleRun interval lastEventTime rest

/-- Times at which a given key actually fired, out of a throttle run. -/
def firesOf (key : String) (fires : List (String × Nat)) : List Nat :=
  (fires.filter (fun p => decide (p.1 = key))).map Prod.snd

/-- The face pipeline's `triggerEvent` from `useComputerVision.ts`: early
return when the same event type fired less than 5000 ms ago; otherwise
record the firing time, call the local `onEvent` handler, then POST the
event to the backend (when a session id is present). -/
def triggerEvent (lastEventTime : String → Nat) (event : DetectionEvent)
    (currentTime : Nat) (hasSessionId : Bool) : (String → Nat) × List Action :=
  if currentTime - lastEventTime event.type < 5000 then
    (lastEventTime, [])
  else
    (throttleMark lastEventTime event.type currentTime,
     Action.localEmit event :: (if hasSessionId then [Action.networkPost event] else []))

/-- Events delivered to the local observer, extracted from an action list. -/
def emittedEvents (acts : List Action) : List DetectionEvent :=
  acts.filterMap fun a =>
    match a with
    | .localEmit e => some e
    | .networkPost _ => none

/-- CLAIM C1: on a remote status report the engine adopts the reported
integrity score exactly when it is lower than the current local score or the
local score still equals its initial value 100; in particular a local 80
survives a stale remote 100 and then adopts a later remote 70. -/
theorem syncScore_adopts_iff_lower_or_initial :
    (∀ currentScore integrityScore : Int,
        (integrityScore < currentScore ∨ currentScore = 100) →
        syncScore currentScore integrityScore = integrityScore)
    ∧ (∀ currentScore integrityScore : Int,
        ¬(integrityScore < currentScore ∨ currentScore = 100) →
        syncScore currentScore integrityScore = currentScore)
    ∧ syncScore 80 100 = 80 ∧ syncScore 80 70 = 70 := by
  refine ⟨?_, ?_, by decide, by decide⟩
  · intro c r h
    rcases h with h | h
    · simp [syncScore, h]
    · simp [syncScore, h]
  · intro c r h
    push_neg at h
    unfold syncScore
    rw [if_neg]
    rintro (hc | hr)
    · exact h.2 hc
    · exact absurd hr (not_lt.mpr h.1)

/-- WITNESS for C1: concrete instances of both directions. -/
theorem syncScore_adopts_iff_lower_or_initial_witness :
    syncScore 100 90 = 90 ∧ syncScore 80 90 = 80 :=
  ⟨syncScore_adopts_iff_lower_or_initial.1 100 90 (Or.inr rfl),
   syncScore_adopts_iff_lower_or_initial.2.1 80 90 (by decide)⟩

/-- CLAIM C3: every qualifying violation updates the ledger by
`newLocalScore = max(0, localScore - deduction)` with deductions
2 / 5 / 10 for low / medium / high, and `triggerEvent` performs the local
update (the `onEvent` call) strictly before the network POST of the event. -/
theorem deduction_applied_locally_before_network :
    (deductionAmounts .low = 2 ∧ deductionAmounts .medium = 5 ∧
      deductionAmounts .high = 10)
    ∧ (∀ severity s, applyDeduction severity s = max 0 (s - deductionAmounts severity))
    ∧ (∀ lastEventTime event currentTime,
        (triggerEvent lastEventTime event currentTime true).2 = []
        ∨ (triggerEvent lastEventTime event currentTime true).2 =
            [Action.localEmit event, Action.networkPost event]) := by
  refine ⟨⟨rfl, rfl, rfl⟩, fun _ _ => rfl, ?_⟩
  intro l e t
  unfold triggerEvent
  split
  · exact Or.inl rfl
  · exact Or.inr rfl

/-- Effect of a single valid ledger step: it keeps the score in range and
never increases it.  Remote values are those the backend can report, which
its score endpoint validates into `[0,100]`. -/
lemma stepScore_bounds (s : Int) (h0 : 0 ≤ s) (h100 : s ≤ 100) (step : ScoreStep)
    (hr : ∀ r, step = .remoteSync r → 0 ≤ r ∧ r ≤ 100) :
    0 ≤ stepScore s step ∧ stepScore s step ≤ s := by
  cases step with
  | deduct severity =>
    refine ⟨le_max_left 0 _, max_le h0 ?_⟩
    cases severity <;> simp [deductionAmounts] <;> omega
  | remoteSync r =>
    obtain ⟨hr0, hr100⟩ := hr r rfl
    simp only [stepScore, syncScore]
    split
    · next h =>
      rcases h with h | h
      · exact ⟨hr0, by omega⟩
      · exact ⟨hr0, by omega⟩
    · exact ⟨h0, le_refl s⟩

/-- CLAIM C2: over every sequence of ticks (deductions) and remote status
deliveries (whose reported scores the backend keeps in `[0,100]`), the local
score stays in `[0,100]` and never increases — in particular no step, remote
sync included, ever raises it above its pre-step value, which subsumes the
asymmetric-reconciliation exception allowed by the claim. -/
theorem localScore_bounded_and_nonincreasing :
    ∀ steps : List ScoreStep,
      (∀ r : Int, ScoreStep.remoteSync r ∈ steps → 0 ≤ r ∧ r ≤ 100) →
      ∀ s : Int, 0 ≤ s → s ≤ 100 →
        (0 ≤ runScore s steps ∧ runScore s steps ≤ 100) ∧ runScore s steps ≤ s := by
  intro steps
  induction steps with
  | nil =>
    intro _ s h0 h100
    exact ⟨⟨h0, h100⟩, le_refl s⟩
  | cons step rest ih =>
    intro h s h0 h100
    have hstep := stepScore_bounds s h0 h100 step
      (fun r hr => h r (by rw [← hr]; exact List.mem_cons_self _ _))
    have hrest := ih (fun r hr => h r (List.mem_cons_of_mem _ hr))
      (stepScore s step) hstep.1 (le_trans hstep.2 h100)
    have hrun : runScore s (step :: rest) = runScore (stepScore s step) rest := rfl
    rw [hrun]
    exact ⟨hrest.1, le_trans hrest.2 hstep.2⟩

/-- WITNESS for C2: a concrete trace — two deductions around a stale remote
report of 100 and a lower remote report of 88. -/
theorem localScore_bounded_and_nonincreasing_witness :
    (0 ≤ runScore 100 [.deduct .high, .remoteSync 100, .deduct .medium, .remoteSync 88]
      ∧ runScore 100 [.deduct .high, .remoteSync 100, .deduct .medium, .remoteSync 88] ≤ 100)
    ∧ runScore 100 [.deduct .high, .remoteSync 100, .deduct .medium, .remoteSync 88] ≤ 100 := by
  refine localScore_bounded_and_nonincreasing _ ?_ 100 (by decide) (by decide)
  intro r hr
  simp only [List.mem_cons, List.not_mem_nil, or_false] at hr
  rcases hr with h | h | h | h <;> simp_all <;> omega

/-- Unfolding of `firesOf` over a cons cell. -/
lemma firesOf_cons (key k : String) (t : Nat) (l : List (String × Nat)) :
    firesOf key ((k, t) :: l) =
      if k = key then t :: firesOf key l else firesOf key l := by
  simp only [firesOf, List.filter_cons]
  split
  · next h =>
    rw [if_pos (by simpa using h)]
    rfl
  · next h =>
    rw [if_neg (by simpa using h)]

/-- Every firing of a key admitted by a throttle run lies at least one full
refire interval after the key's incoming `lastEventTime`. -/
lemma throttleRun_fires_lowerBound (interval : Nat) (hpos : 0 < interval)
    (key : String) :
    ∀ (attempts : List (String × Nat)) (st : String → Nat),
      ∀ t ∈ firesOf key (throttleRun interval st attempts), st key + interval ≤ t := by
  intro attempts
  induction attempts with
  | nil => simp [throttleRun, firesOf]
  | cons a rest ih =>
    intro st t ht
    obtain ⟨k, tt⟩ := a
    simp only [throttleRun] at ht
    by_cases hallow : throttleAllows interval st k tt = true
    · rw [if_pos hallow] at ht
      have hgap : interval ≤ tt - st k := by
        simpa [throttleAllows] using hallow
      by_cases hk : k = key
      · subst hk
        rw [firesOf_cons, if_pos rfl] at ht
        rcases List.mem_cons.mp ht with h | h
        · subst h
          omega
        · have := ih (throttleMark st k tt) t h
          simp [throttleMark] at this
          omega
      · rw [firesOf_cons, if_neg hk] at ht
        have := ih (throttleMark st k tt) t ht
        simp only [throttleMark] at this
        rw [if_neg (fun h => hk h.symm)] at this
        exact this
    · rw [if_neg hallow] at ht
      exact ih st t ht

/-- Firings of a single key admitted by a throttle run are pairwise separated
by at least the refire interval. -/
lemma throttleRun_fires_pairwise (interval : Nat) (hpos : 0 < interval)
    (key : String) :
    ∀ (attempts : List (String × Nat)) (st : String → Nat),
      (firesOf key (throttleRun interval st attempts)).Pairwise
        (fun a b => a + interval ≤ b) := by
  intro attempts
  induction attempts with
  | nil => simp [throttleRun, firesOf]
  | cons a rest ih =>
    intro st
    obtain ⟨k, tt⟩ := a
    simp only [throttleRun]
    by_cases hallow : throttleAllows interval st k tt = true
    · rw [if_pos hallow]
      by_cases hk : k = key
      · subst hk
        rw [firesOf_cons, if_pos rfl]
        refine List.Pairwise.cons ?_ (ih (throttleMark st k tt))
        intro t ht
        have := throttleRun_fires_lowerBound interval hpos k rest
          (throttleMark st k tt) t ht
        simp [throttleMark] at this
        exact this
      · rw [firesOf_cons, if_neg hk]
        exact ih (throttleMark st k tt)
    · rw [if_neg hallow]
      exact ih st

/-- A list of interval-separated times meets any half-open window of the
interval's length in at most one point. -/
lemma pairwise_separated_window (interval w : Nat) :
    ∀ l : List Nat, l.Pairwise (fun a b => a + interval ≤ b) →
      (l.filter (fun t => decide (w ≤ t) && decide (t < w + interval))).length ≤ 1 := by
  intro l hl
  match hfl : l.filter (fun t => decide (w ≤ t) && decide (t < w + interval)) with
  | [] => simp
  | [t] => simp
  | t1 :: t2 :: rest =>
    exfalso
    have hp := hl.filter (fun t => decide (w ≤ t) && decide (t < w + interval))
    rw [hfl] at hp
    have h12 : t1 + interval ≤ t2 :=
      (List.pairwise_cons.mp hp).1 t2 (List.mem_cons_self _ _)
    have ht1 : t1 ∈ l.filter (fun t => decide (w ≤ t) && decide (t < w + interval)) := by
      rw [hfl]; exact List.mem_cons_self _ _
    have ht2 : t2 ∈ l.filter (fun t => decide (w ≤ t) && decide (t < w + interval)) := by
      rw [hfl]; exact List.mem_cons_of_mem _ (List.mem_cons_self _ _)
    have h1 := List.of_mem_filter ht1
    have h2 := List.of_mem_filter ht2
    simp only [Bool.and_eq_true, decide_eq_true_eq] at h1 h2
    omega

/-- CLAIM C4: the throttle admits a firing exactly when the kind's last-fired
timestamp is unset (stored as `0`) or at least the refire interval old; an
admitted firing records the current time; the face pipeline enforces this
with a 5000 ms interval per kind and the object pipeline with an 8000 ms
interval per `object_<label>` key; and in any window of the interval's
length at most one firing of a given kind is admitted, however many attempts
observe the condition.  Times are epoch milliseconds, hence `interval ≤ now`
in any run after the epoch's first seconds. -/
theorem throttle_one_firing_per_window :
    (∀ (interval : Nat) (last : String → Nat) (key : String) (now : Nat),
        0 < interval → interval ≤ now →
        (throttleAllows interval last key now = true ↔
          (last key = 0 ∨ interval ≤ now - last key)))
    ∧ (∀ (last : String → Nat) (key : String) (now : Nat),
        throttleMark last key now key = now)
    ∧ (∀ (st : String → Nat) (event : DetectionEvent) (now : Nat) (hasId : Bool),
        (triggerEvent st event now hasId).2 ≠ [] ↔
          throttleAllows 5000 st event.type now = true)
    ∧ (∀ (st : String → Nat) (event : DetectionEvent) (now : Nat) (hasId : Bool),
        (triggerEvent st event now hasId).2 ≠ [] →
          (triggerEvent st event now hasId).1 event.type = now)
    ∧ (∀ (interval : Nat) (st : String → Nat) (key : String)
        (attempts : List (String × Nat)) (w : Nat), 0 < interval →
        ((firesOf key (throttleRun interval st attempts)).filter
          (fun t => decide (w ≤ t) && decide (t < w + interval))).length ≤ 1) := by
  refine ⟨?_, ?_, ?_, ?_, ?_⟩
  · intro interval last key now hpos hnow
    simp only [throttleAllows, Bool.not_eq_true', decide_eq_false_iff_not, not_lt]
    omega
  · intro last key now
    simp [throttleMark]
  · intro st event now hasId
    unfold triggerEvent
    split
    · next h =>
      simp only [ne_eq, not_true_eq_false, false_iff, throttleAllows]
      simpa using h
    · next h =>
      simp only [ne_eq, List.cons_ne_nil, not_false_eq_true, true_iff, throttleAllows]
      simpa using h
  · intro st event now hasId
    unfold triggerEvent
    split
    · intro h
      exact absurd rfl h
    · intro _
      simp [throttleMark]
  · intro interval st key attempts w hpos
    exact pairwise_separated_window interval w _
      (throttleRun_fires_pairwise interval hpos key attempts st)

/-- WITNESS for C4: the admission rule at concrete epoch-style inputs and the
window bound on a concrete burst of `no_face` attempts. -/
theorem throttle_one_firing_per_window_witness :
    (throttleAllows 5000 (fun _ => 0) "no_face" 100000 = true ↔
      ((fun _ => 0) "no_face" = 0 ∨ 5000 ≤ 100000 - (fun _ => 0) "no_face"))
    ∧ ((firesOf "no_face" (throttleRun 5000 (fun _ => 0)
          [("no_face", 100000), ("no_face", 101000), ("no_face", 103000)])).filter
        (fun t => decide (100000 ≤ t) && decide (t < 105000))).length ≤ 1 :=
  ⟨throttle_one_firing_per_window.1 5000 (fun _ => 0) "no_face" 100000
      (by decide) (by decide),
   throttle_one_firing_per_window.2.2.2.2 5000 (fun _ => 0) "no_face"
      [("no_face", 100000), ("no_face", 101000), ("no_face", 103000)] 100000
      (by decide)⟩

/-- Per-frame signal snapshot consumed by `onResults` in
`useComputerVision.ts`: face count and the landmark-derived flags. -/
structure FaceSnapshot where
  facesDetected : Nat
  isLookingAway : Bool
  eyesClosed : Bool
  deriving DecidableEq, Repr

/-- Mutable refs of the face pipeline: the shared throttle map and the three
condition-onset timers. -/
structure FaceState where
  lastEventTime : String → Nat
  noFaceStartTime : Option Nat
  lookingAwayStartTime : Option Nat
  eyesClosedStartTime : Option Nat

/-- Initial ref values: empty throttle map (reads default to 0) and no
recorded onsets. -/
def initFaceState : FaceState :=
  { lastEventTime := fun _ => 0
    noFaceStartTime := none
    lookingAwayStartTime := none
    eyesClosedStartTime := none }

/-- Event built for the multiple-faces condition in `onResults`. -/
def multipleFacesEvent (facesDetected : Nat) : DetectionEvent :=
  { type := "multiple_faces"
    description := toString facesDetected ++ " faces detected in frame"
    severity := .high }

/-- Event built for the no-face condition in `onResults`. -/
def noFaceEvent : DetectionEvent :=
  { type := "no_face"
    description := "No face detected for more than 3 seconds"
    severity := .high }

/-- Event built for the looking-away condition in `onResults`. -/
def focusLostEvent : DetectionEvent :=
  { type := "focus_lost"
    description := "Candidate looking away for more than 2 seconds"
    severity := .medium }

/-- Event built for the eyes-closed condition in `onResults`. -/
def drowsinessEvent : DetectionEvent :=
  { type := "drowsiness"
    description := "Eyes closed for extended period - possible drowsiness"
    severity := .medium }

/-- Detection activation from the countdown effect in `useComputerVision.ts`:
`remaining = Math.max(0, 5 - (now - start)/1000)` and detection is enabled
once `remaining` reaches 0, i.e. 5000 ms after the start instant. -/
def detectionEnabledAt (detectionStartTime now : Nat) : Bool :=
  decide (detectionStartTime + 5000 ≤ now)

/-- One `onResults` tick of the face pipeline.  Mirrors the source order:
first the multiple-faces and no-face checks (violations gated on
`detectionEnabled`, timers reset while detection is disabled), then — only
when exactly one face is present — the looking-away and eyes-closed state
machines.  Each threshold firing resets its onset timer to `currentTime`
whether or not the throttle admits the event, and admitted events flow
through `triggerEvent`. -/
def faceTick (detectionEnabled : Bool) (st : FaceState) (snap : FaceSnapshot)
    (currentTime : Nat) : FaceState × List DetectionEvent :=
  let step1 :=
    if detectionEnabled then
      let multi :=
        if snap.facesDetected > 1 then
          let r := triggerEvent st.lastEventTime
            (multipleFacesEvent snap.facesDetected) currentTime true
          (r.1, emittedEvents r.2)
        else (st.lastEventTime, [])
      if snap.facesDetected = 0 then
        match st.noFaceStartTime with
        | none =>
          ({ st with lastEventTime := multi.1, noFaceStartTime := some currentTime },
           multi.2)
        | some s0 =>
          if currentTime - s0 > 3000 then
            let r := triggerEvent multi.1 noFaceEvent currentTime true
            ({ st with lastEventTime := r.1, noFaceStartTime := some currentTime },
             multi.2 ++ emittedEvents r.2)
          else ({ st with lastEventTime := multi.1 }, multi.2)
      else ({ st with lastEventTime := multi.1, noFaceStartTime := none }, multi.2)
    else ({ st with noFaceStartTime := none }, [])
  let st1 := step1.1
  if snap.facesDetected = 1 then
    let step2 :=
      if detectionEnabled then
        if snap.isLookingAway then
          match st1.lookingAwayStartTime with
          | none => ({ st1 with lookingAwayStartTime := some currentTime }, [])
          | some s0 =>
            if currentTime - s0 > 2000 then
              let r := triggerEvent st1.lastEventTime focusLostEvent currentTime true
              ({ st1 with lastEventTime := r.1, lookingAwayStartTime := some currentTime },
               emittedEvents r.2)
            else (st1, [])
        else ({ st1 with lookingAwayStartTime := none }, [])
      else ({ st1 with lookingAwayStartTime := none }, [])
    let st2 := step2.1
    let step3 :=
      if detectionEnabled && snap.eyesClosed then
        match st2.eyesClosedStartTime with
        | none => ({ st2 with eyesClosedStartTime := some currentTime }, [])
        | some s0 =>
          if currentTime - s0 > 3000 then
            let r := triggerEvent st2.lastEventTime drowsinessEvent currentTime true
            ({ st2 with lastEventTime := r.1, eyesClosedStartTime := some currentTime },
             emittedEvents r.2)
          else (st2, [])
      else ({ st2 with eyesClosedStartTime := none }, [])
    (step3.1, step1.2 ++ step2.2 ++ step3.2)
  else (st1, step1.2)

/-- A whole run of face-pipeline ticks, returning the final ref state and
the emitted violations with their emission times. -/
def runFaceFull (enabledAt : Nat → Bool) (st : FaceState) :
    List (FaceSnapshot × Nat) → FaceState × List (DetectionEvent × Nat)
  | [] => (st, [])
  | (snap, t) :: rest =>
    let r := faceTick (enabledAt t) st snap t
    let rec2 := runFaceFull enabledAt r.1 rest
    (rec2.1, r.2.map (fun e => (e, t)) ++ rec2.2)

/-- Violations emitted over a run of face-pipeline ticks. -/
def runFace (enabledAt : Nat → Bool) (st : FaceState)
    (ticks : List (FaceSnapshot × Nat)) : List (DetectionEvent × Nat) :=
  (runFaceFull enabledAt st ticks).2

/-- A labelled object detection from `useObjectDetection.ts`
(`class` and `score`; the bounding box plays no role in the core logic). -/
structure DetectedObject where
  objClass : String
  score : Rat
  deriving DecidableEq, Repr

/-- The configured monitored-object label set (`suspiciousClasses`). -/
def suspiciousClasses : List String :=
  ["cell phone", "book", "laptop", "keyboard", "mouse", "remote", "scissors",
   "teddy bear", "vase", "bottle", "cup", "tablet", "tv", "microwave",
   "toaster", "clock"]

/-- High-risk labels from `getSeverity`. -/
def highRisk : List String :=
  ["cell phone", "laptop", "keyboard", "mouse", "tablet", "tv", "microwave"]

/-- Medium-risk labels from `getSeverity`. -/
def mediumRisk : List String :=
  ["book", "remote", "scissors", "clock"]

/-- Low-risk labels from `getSeverity`. -/
def lowRisk : List String :=
  ["teddy bear", "vase", "bottle", "cup", "toaster"]

/-- JavaScript `toLowerCase()` for the ASCII object labels used here,
written as a per-character map so that it evaluates by reduction. -/
def jsToLowerCase (s : String) : String :=
  String.mk (s.data.map Char.toLower)

/-- Severity assignment of `getSeverity` in `useObjectDetection.ts`. -/
def getSeverity (objectClass : String) : Severity :=
  let lowerClass := jsToLowerCase objectClass
  if highRisk.contains lowerClass then .high
  else if mediumRisk.contains lowerClass then .medium
  else if lowRisk.contains lowerClass then .low
  else .low

/-- Suspicious-object filter from `performDetection`:
`suspiciousClasses.includes(obj.class.toLowerCase()) && obj.score > 0.6`. -/
def filterSuspicious (detectedObjects : List DetectedObject) : List DetectedObject :=
  detectedObjects.filter fun obj =>
    suspiciousClasses.contains (jsToLowerCase obj.objClass) && decide (mkRat 6 10 < obj.score)

/-- JavaScript `Math.round(q * 100)` on a nonnegative rational confidence:
`round(100 q) = floor(100 q + 1/2) = (200 num + den) / (2 den)` (integer
division, exact for the nonnegative confidences used here). -/
def confidencePercent (q : Rat) : Int :=
  (200 * q.num + q.den) / (2 * (q.den : Int))

/-- Violation event built in `processSuspiciousObjects` for one suspicious
object. -/
def objectEvent (obj : DetectedObject) : DetectionEvent :=
  { type := "object_detected"
    description := obj.objClass ++ " detected in frame (" ++
      toString (confidencePercent obj.score) ++ "% confidence)"
    severity := getSeverity obj.objClass }

/-- The `processSuspiciousObjects` loop from `useObjectDetection.ts`: for
each suspicious object, skip it when the `object_<label>` key fired less
than 8000 ms ago, otherwise record the firing time and emit the event
(local `onEvent` handler first, then the fire-and-forget backend POST). -/
def processSuspiciousObjects (lastEventTime : String → Nat)
    (suspicious : List DetectedObject) (currentTime : Nat) :
    (String → Nat) × List (DetectionEvent × Nat) :=
  match suspicious with
  | [] => (lastEventTime, [])
  | obj :: rest =>
    let eventKey := "object_" ++ obj.objClass
    if currentTime - lastEventTime eventKey < 8000 then
      processSuspiciousObjects lastEventTime rest currentTime
    else
      let r := processSuspiciousObjects
        (throttleMark lastEventTime eventKey currentTime) rest currentTime
      (r.1, (objectEvent obj, currentTime) :: r.2)

/-- One `performDetection` tick of the object pipeline: filter the raw
predictions down to suspicious objects and, only when detection is enabled,
run them through the throttled event loop. -/
def performDetection (lastEventTime : String → Nat)
    (predictions : List DetectedObject) (detectionEnabled : Bool)
    (currentTime : Nat) : (String → Nat) × List (DetectionEvent × Nat) :=
  let suspicious := filterSuspicious predictions
  if detectionEnabled then
    processSuspiciousObjects lastEventTime suspicious currentTime
  else (lastEventTime, [])

/-- A stored proctoring event in the backend session document
(`sessionSchema.events` in `server.js`). -/
structure SessionEvent where
  type : String
  description : String
  severity : String
  timestamp : Nat
  deriving DecidableEq, Repr

/-- A backend interview-session document (`sessionSchema` in `server.js`). -/
structure Session where
  candidateName : String
  interviewerId : String
  startTime : Nat
  endTime : Option Nat
  isActive : Bool
  events : List SessionEvent
  integrityScore : Int
  deriving DecidableEq, Repr

/-- `POST /api/session/start`: a fresh session with the schema defaults
(`isActive: true`, `integrityScore: 100`, empty event list). -/
def newSession (candidateName interviewerId : String) (now : Nat) : Session :=
  { candidateName := candidateName
    interviewerId := interviewerId
    startTime := now
    endTime := none
    isActive := true
    events := []
    integrityScore := 100 }

/-- `POST /api/session/:id/event`: push the event (severity defaulting to
`"medium"`) onto the session's event list; the comment in the source notes
"score deduction now handled by frontend" and the handler does not touch
`integrityScore`. -/
def postEvent (session : Session) (type description : String)
    (severity : Option String) (now : Nat) : Session :=
  { session with
      events := session.events ++
        [{ type := type, description := description,
           severity := severity.getD "medium", timestamp := now }] }

/-- `PATCH /api/session/:id/end`: close the session. -/
def endSession (session : Session) (now : Nat) : Session :=
  { session with endTime := some now, isActive := false }

/-- Outcome of the score-update endpoint: HTTP 400 rejection or success. -/
inductive UpdateScoreResult
  | invalid
  | ok (newScore : Int)
  deriving DecidableEq, Repr

/-- `PATCH /api/session/:id/score`: reject unless the request body carries a
number in `[0,100]` (a non-number body is modelled as `none`); on success
overwrite the stored score. -/
def updateScore (session : Session) (integrityScore : Option Int) :
    Session × UpdateScoreResult :=
  match integrityScore with
  | none => (session, .invalid)
  | some x =>
    if x < 0 ∨ 100 < x then (session, .invalid)
    else ({ session with integrityScore := x }, .ok x)

/-- With detection disabled a face tick emits nothing (every trigger in
`onResults` is gated on `detectionEnabled`). -/
lemma faceTick_disabled_no_events (st : FaceState) (snap : FaceSnapshot)
    (currentTime : Nat) : (faceTick false st snap currentTime).2 = [] := by
  unfold faceTick
  split <;> simp_all <;> split <;> rfl

/-- CLAIM C6: before the activation instant (session start plus the 5 s
grace period) no violation of any kind is emitted: a face tick emits nothing
and the object pipeline emits nothing when fed the pre-activation
`detectionEnabled` flag. -/
theorem no_violation_before_activation :
    ∀ (detectionStartTime now : Nat) (st : FaceState) (snap : FaceSnapshot)
      (lastEventTime : String → Nat) (predictions : List DetectedObject),
      now < detectionStartTime + 5000 →
      (faceTick (detectionEnabledAt detectionStartTime now) st snap now).2 = []
      ∧ (performDetection lastEventTime predictions
          (detectionEnabledAt detectionStartTime now) now).2 = [] := by
  intro start now st snap lastEventTime predictions hnow
  have henabled : detectionEnabledAt start now = false := by
    simp only [detectionEnabledAt, decide_eq_false_iff_not, not_le]
    omega
  rw [henabled]
  exact ⟨faceTick_disabled_no_events st snap now, by simp [performDetection]⟩

/-- WITNESS for C6: a concrete tick 100 ms into the session emits nothing in
either pipeline. -/
theorem no_violation_before_activation_witness :
    (faceTick (detectionEnabledAt 10000 10100) initFaceState
        ⟨0, true, true⟩ 10100).2 = []
    ∧ (performDetection (fun _ => 0) [⟨"cell phone", mkRat 9 10⟩]
        (detectionEnabledAt 10000 10100) 10100).2 = [] :=
  no_violation_before_activation 10000 10100 initFaceState ⟨0, true, true⟩
    (fun _ => 0) [⟨"cell phone", mkRat 9 10⟩] (by decide)

/-- CLAIM C10: posting a violation event appends it to the session's event
list (with severity defaulting to "medium") and never changes the stored
`integrityScore`; neither does ending a session; a new session starts at
100; and the validated score endpoint is the only operation that changes the
stored score, leaving it untouched on invalid input. -/
theorem postEvent_appends_and_preserves_score :
    (∀ (s : Session) (type description : String) (severity : Option String) (now : Nat),
        (postEvent s type description severity now).integrityScore = s.integrityScore
        ∧ (postEvent s type description severity now).events =
            s.events ++
              [{ type := type, description := description,
                 severity := severity.getD "medium", timestamp := now }])
    ∧ (∀ (s : Session) (now : Nat),
        (endSession s now).integrityScore = s.integrityScore)
    ∧ (∀ (candidateName interviewerId : String) (now : Nat),
        (newSession candidateName interviewerId now).integrityScore = 100)
    ∧ (∀ (s : Session) (x : Int),
        (updateScore s (some x)).1.integrityScore =
          if x < 0 ∨ 100 < x then s.integrityScore else x)
    ∧ (∀ s : Session, (updateScore s none).1 = s) := by
  refine ⟨fun s type description severity now => ⟨rfl, rfl⟩,
    fun s now => rfl, fun c i now => rfl, ?_, fun s => rfl⟩
  intro s x
  simp only [updateScore]
  split <;> rfl

/-- COUNTEREXAMPLE to C9 as stated: the frontend reconciliation performs no
range validation, so on receiving the out-of-range remote score −5 with a
local score of 80 it adopts −5 instead of leaving the local score
unchanged. -/
theorem invalid_remote_score_changes_local_counterexample :
    syncScore 80 (-5) = -5 ∧ ¬ syncScore 80 (-5) = 80 := by
  constructor
  · rfl
  · intro h
    exact absurd h (by decide)

/-- CLAIM C9 (amended): the backend score endpoint rejects a non-number or
out-of-range `integrityScore` with the stored score unchanged; the frontend
reconciliation itself performs no range validation and adopts any remote
value lower than the current local score. -/
theorem out_of_range_score_rejected_by_backend :
    (∀ (s : Session) (x : Int), (x < 0 ∨ 100 < x) →
        (updateScore s (some x)).1 = s ∧ (updateScore s (some x)).2 = .invalid)
    ∧ (∀ s : Session,
        (updateScore s none).1 = s ∧ (updateScore s none).2 = .invalid)
    ∧ (∀ currentScore r : Int, r < currentScore →
        syncScore currentScore r = r) := by
  refine ⟨?_, fun s => ⟨rfl, rfl⟩, ?_⟩
  · intro s x h
    simp only [updateScore]
    rw [if_pos h]
    exact ⟨rfl, rfl⟩
  · intro c r h
    simp [syncScore, h]

/-- WITNESS for amended C9: a concrete rejection of 101 and a concrete
unvalidated adoption of −5. -/
theorem out_of_range_score_rejected_by_backend_witness :
    (updateScore (newSession "Jane" "INT1" 0) (some 101)).1 =
        newSession "Jane" "INT1" 0
    ∧ syncScore 80 (-5) = -5 :=
  ⟨(out_of_range_score_rejected_by_backend.1 (newSession "Jane" "INT1" 0) 101
      (Or.inr (by decide))).1,
   out_of_range_score_rejected_by_backend.2.2 80 (-5) (by decide)⟩

/-- CLAIM C8: only detections whose (lowercased) label is in the monitored
set with confidence above 0.6 are considered at all; a post-activation
"cell phone" detection at 90% confidence yields exactly one high-severity
violation (worth a 10-point deduction), and a repeat detection 3 s later is
suppressed by the 8 s per-label throttle. -/
theorem cellphone_one_high_violation_throttled :
    (∀ obj : DetectedObject,
        (suspiciousClasses.contains (jsToLowerCase obj.objClass) = false
          ∨ obj.score ≤ mkRat 6 10) →
        filterSuspicious [obj] = [])
    ∧ (∀ (objs : List DetectedObject) (obj : DetectedObject),
        obj ∈ filterSuspicious objs →
        suspiciousClasses.contains (jsToLowerCase obj.objClass) = true
          ∧ mkRat 6 10 < obj.score)
    ∧ (performDetection (fun _ => 0) [⟨"cell phone", mkRat 9 10⟩] true 10000).2 =
        [(objectEvent ⟨"cell phone", mkRat 9 10⟩, 10000)]
    ∧ (objectEvent ⟨"cell phone", mkRat 9 10⟩).severity = .high
    ∧ deductionAmounts .high = 10
    ∧ (performDetection
        (performDetection (fun _ => 0) [⟨"cell phone", mkRat 9 10⟩] true 10000).1
        [⟨"cell phone", mkRat 9 10⟩] true 13000).2 = [] := by
  refine ⟨?_, ?_, by decide, by decide, by decide, by decide⟩
  · intro obj h
    have hp : (suspiciousClasses.contains (jsToLowerCase obj.objClass)
        && decide (mkRat 6 10 < obj.score)) = false := by
      rcases h with h | h
      · rw [h]
        rfl
      · rw [decide_eq_false (not_lt.mpr h), Bool.and_false]
    simp only [filterSuspicious, List.filter, hp]
  · intro objs obj h
    simp only [filterSuspicious] at h
    have := List.of_mem_filter h
    simpa only [Bool.and_eq_true, decide_eq_true_eq] using this

/-- WITNESS for C8: a low-confidence book is filtered out, and the admitted
cell-phone detection satisfies both filter conditions. -/
theorem cellphone_one_high_violation_throttled_witness :
    filterSuspicious [⟨"book", mkRat 5 10⟩] = []
    ∧ (suspiciousClasses.contains (jsToLowerCase "cell phone") = true
        ∧ mkRat 6 10 < mkRat 9 10) :=
  ⟨cellphone_one_high_violation_throttled.1 ⟨"book", mkRat 5 10⟩
      (Or.inr (by decide)),
   cellphone_one_high_violation_throttled.2.1 [⟨"cell phone", mkRat 9 10⟩]
      ⟨"cell phone", mkRat 9 10⟩ (by decide)⟩

/-- Scenario input for the looking-away claim: exactly one face, looking
away, eyes open, on every frame. -/
def c5Snapshot : FaceSnapshot := ⟨1, true, false⟩

/-- Scenario ticks for the looking-away claim: frames every 33 ms (the
face pipeline's ~30 fps cadence) for 15 s, starting at epoch-style instant
10000 ms, which plays the role of t = 0. -/
def c5Ticks : List (FaceSnapshot × Nat) :=
  (List.range 455).map (fun k => (c5Snapshot, 10000 + 33 * k))

/-- Face-pipeline run of the looking-away scenario, post-activation
(detection enabled on every tick). -/
def c5Run : List (DetectionEvent × Nat) :=
  runFace (fun _ => true) initFaceState c5Ticks

set_option maxRecDepth 100000 in
/-- COUNTEREXAMPLE to C5 as stated: with the looking-away condition
continuously true from t = 0 (tick times `10000 + 33k`), violations are
emitted at t = 2013 ms, 8052 ms and 24091 − 10000 = 14091 ms after start —
not at ≈2 s, 7 s, 12 s: no violation at all is emitted within a second of
t = 7 s (absolute window [16000, 18000]) or of t = 12 s ([21000, 23000]),
because every threshold crossing — throttled or not — re-arms the 2 s onset
timer, so the 5 s throttle quantizes to one firing per three crossings
(≈6 s apart). -/
theorem lookingAway_violations_not_at_7s_counterexample :
    c5Run.map Prod.snd = [12013, 18052, 24091]
    ∧ (∀ p ∈ c5Run,
        ¬(16000 ≤ p.2 ∧ p.2 ≤ 18000) ∧ ¬(21000 ≤ p.2 ∧ p.2 ≤ 23000)) := by
  decide

set_option maxRecDepth 100000 in
/-- CLAIM C5 (amended): with looking-away threshold 2 s and refire throttle
5 s, a continuously-true condition from t = 0 (post-activation) emits
`focus_lost` violations at t ≈ 2.0 s, 8.1 s, 14.1 s — each subsequent firing
one 2 s re-arm cycle past the 5 s throttle, ≈6 s apart — each deducting
5 points, so the score sequence is 95, 90, 85. -/
theorem lookingAway_violations_every_6s :
    c5Run = [(focusLostEvent, 12013), (focusLostEvent, 18052),
             (focusLostEvent, 24091)]
    ∧ c5Run.scanl (fun s p => applyDeduction p.1.severity s) 100 =
        [100, 95, 90, 85] := by
  decide

/-- Scenario input for the grace-window claim: face absent on every frame. -/
def c7Snapshot : FaceSnapshot := ⟨0, false, false⟩

/-- Activation flag for the grace-window scenario: session and countdown
start at instant 10000 ms, so detection activates at 15000 ms. -/
def c7Enabled : Nat → Bool := detectionEnabledAt 10000

/-- Grace-window ticks strictly before activation: frames every 100 ms over
[10000, 14900]. -/
def c7PreTicks : List (FaceSnapshot × Nat) :=
  (List.range 50).map (fun k => (c7Snapshot, 10000 + 100 * k))

/-- Ticks of the grace-window scenario through the activation instant
15000 ms. -/
def c7Through15000 : List (FaceSnapshot × Nat) :=
  (List.range 51).map (fun k => (c7Snapshot, 10000 + 100 * k))

/-- Ticks of the grace-window scenario for the first 10 s of the session. -/
def c7AllTicks : List (FaceSnapshot × Nat) :=
  (List.range 101).map (fun k => (c7Snapshot, 10000 + 100 * k))

set_option maxRecDepth 100000 in
/-- COUNTEREXAMPLE to C7 as stated: with the face absent continuously from
session start (10000 ms; grace 5 s, threshold 3 s), the no-face onset
timestamp after processing every pre-activation tick is still `none` — the
pre-activation branch of `onResults` resets the timers every tick instead of
letting them run — and the first violation fires only at 18100 ms
(activation + 3.1 s), so no accumulated duration carried over. -/
theorem grace_onset_not_recorded_counterexample :
    (runFaceFull c7Enabled initFaceState c7PreTicks).1.noFaceStartTime = none
    ∧ (runFace c7Enabled initFaceState c7AllTicks).map Prod.snd = [18100] := by
  decide

set_option maxRecDepth 100000 in
/-- CLAIM C7 (amended): during the pre-activation grace window the temporal
state machines do not run — each disabled tick resets the onset timers to
null — so no onset is recorded before activation and no duration carries
over; the onset is first recorded at the activation tick (15000 ms in the §8
scenario) and the first no-face violation fires a full threshold later, at
t ≈ 8.1 s. -/
theorem grace_resets_onset_each_tick :
    (∀ (st : FaceState) (snap : FaceSnapshot) (t : Nat),
        (faceTick false st snap t).1.noFaceStartTime = none)
    ∧ (runFaceFull c7Enabled initFaceState c7Through15000).1.noFaceStartTime =
        some 15000
    ∧ runFace c7Enabled initFaceState c7AllTicks = [(noFaceEvent, 18100)] := by
  refine ⟨?_, by decide, by decide⟩
  intro st snap t
  unfold faceTick
  split <;> simp_all <;> split <;> rfl

end Tutedude
